import Mathlib

set_option maxRecDepth 100000
set_option maxHeartbeats 4000000

/-!
Verification of the style-registry and document-assembly behaviour of
src/create_odt_ref_doc.py.

The script builds an in-memory document tree with the odfpy library and
saves it once.  We embed the trees it builds as a `Node` inductive, the
sequence of document-level calls it performs as a list of `Op`s
(`coreOps` below, transcribed statement by statement from the source),
and an interpreter `runOpE` that applies each call to the document
state.  The structural constraints the external document library
enforces on appends (a table cell may only appear inside a table row,
and so on) are modelled from the spec, since the library itself is not
part of the repository.
-/

/-- An in-memory document node: either a text node or an element with a
tag, an attribute list and an ordered child list.  This mirrors the
odfpy element trees the script builds, restricted to structure and text
as the spec scopes them. -/
inductive Node where
  | text (s : String) : Node
  | elem (tag : String) (attrs : List (String × String)) (children : List Node) : Node

/-- The tag of a node (text nodes get a distinguished pseudo-tag). -/
def Node.tag : Node → String
  | .text _ => "#text"
  | .elem t _ _ => t

/-- The attribute list of a node. -/
def Node.attrsOf : Node → List (String × String)
  | .text _ => []
  | .elem _ a _ => a

/-- Look up an attribute value by key. -/
def attrVal (key : String) (attrs : List (String × String)) : Option String :=
  (attrs.find? (fun p => p.fst == key)).map (fun p => p.snd)

/-- The style name carried by a style node (odfpy resolves a style object
passed as a stylename argument to its name attribute). -/
def nameOf (st : Node) : String :=
  (attrVal "style:name" st.attrsOf).getD ""

/-- Append a child to an element, mirroring what a successful odfpy
addElement call does to the receiving element. -/
def Node.addChild : Node → Node → Node
  | .text s, _ => .text s
  | .elem t a cs, c => .elem t a (cs ++ [c])

/-- Modelled from the spec: the structural constraints the external
document library enforces when a node is appended to a parent (spec 4.2:
appending a table cell without an enclosing row is a
structural-constraint violation; more generally each container admits a
fixed set of child kinds).  The library enforcing this is not part of
src/, so the allowed-children table is modelled for the containers the
script uses.  `none` means the container is not one modelled here. -/
def allowedChildren : String → Option (List String)
  | "office:text" => some ["text:p", "text:h", "text:list", "table:table", "draw:frame", "text:section"]
  | "text:p" => some ["text:span", "text:note", "draw:frame"]
  | "text:list" => some ["text:list-item"]
  | "text:list-item" => some ["text:p", "text:h", "text:list"]
  | "table:table" => some ["table:table-column", "table:table-row", "table:table-header-rows"]
  | "table:table-row" => some ["table:table-cell", "table:covered-table-cell"]
  | "table:table-cell" => some ["text:p", "text:h", "text:list", "table:table"]
  | "draw:frame" => some ["draw:text-box", "draw:image"]
  | "draw:text-box" => some ["text:p", "text:h", "text:list", "table:table"]
  | "text:note" => some ["text:note-citation", "text:note-body"]
  | "text:note-body" => some ["text:p", "text:h", "text:list"]
  | "office:styles" => some ["style:style", "text:list-style"]
  | "office:automatic-styles" => some ["style:style", "style:page-layout", "text:list-style"]
  | "office:master-styles" => some ["style:master-page"]
  | "style:page-layout" => some ["style:page-layout-properties", "style:header-style", "style:footer-style"]
  | "text:list-style" => some ["text:list-level-style-bullet", "text:list-level-style-number"]
  | "style:master-page" => some ["style:header", "style:footer"]
  | "style:style" => some ["style:text-properties", "style:paragraph-properties"]
  | _ => none

/-- Whether appending `child` to a parent with tag `ptag` satisfies the
structural constraints.  Text children are always accepted; containers
without a modelled constraint accept anything. -/
def wfChildOk (ptag : String) (child : Node) : Bool :=
  match child with
  | .text _ => true
  | .elem ctag _ _ =>
      match allowedChildren ptag with
      | none => true
      | some l => l.contains ctag

/-- The checked append operation: appends the child if the structural
constraints allow it, and signals a structural-constraint violation
otherwise. -/
def addElement (parent child : Node) : Except String Node :=
  match parent with
  | .text _ => .error "text node cannot hold children"
  | .elem t attrs cs =>
      if wfChildOk t child then .ok (.elem t attrs (cs ++ [child]))
      else .error ("IllegalChild: " ++ child.tag ++ " in " ++ t)

/-- Checked append into one of the document-level containers (the
styles, automatic-styles, master-styles and body collections), keyed by
the container tag. -/
def addToContainer (ctag : String) (cs : List Node) (child : Node) :
    Except String (List Node) :=
  if wfChildOk ctag child then .ok (cs ++ [child])
  else .error ("IllegalChild: " ++ child.tag ++ " in " ++ ctag)

/-- Whether an append result is a structural-constraint violation. -/
def isError {α : Type} : Except String α → Bool
  | .error _ => true
  | .ok _ => false

/-- Whether an Except result is a success. -/
def exceptOk {α : Type} : Except String α → Bool
  | .ok _ => true
  | .error _ => false

/-- Style(name=..., family=...), as built by the make_parastyle,
make_charstyle, make_framestyle and make_tablestyle helpers. -/
def styleHandle (name family : String) : Node :=
  Node.elem "style:style" [("style:name", name), ("style:family", family)] []

/-- The attribute contributed by a stylename keyword argument on a text
element (odfpy stores the referenced style object by its name). -/
def styAttr (stylename : Option Node) : List (String × String) :=
  match stylename with
  | some st => [("text:style-name", nameOf st)]
  | none => []

/-- P(stylename=..., text=...): a paragraph, the text argument becoming
a text child. -/
def P (stylename : Option Node) (txt : Option String) : Node :=
  Node.elem "text:p" (styAttr stylename)
    (match txt with
     | some s => [Node.text s]
     | none => [])

/-- Span(stylename=..., text=...). -/
def SpanEl (stylename : Option Node) (txt : String) : Node :=
  Node.elem "text:span" (styAttr stylename) [Node.text txt]

/-- List(stylename=...), the text:list container. -/
def ListEl (stylename : Option Node) : Node :=
  Node.elem "text:list" (styAttr stylename) []

/-- ListItem(). -/
def ListItemEl : Node := Node.elem "text:list-item" [] []

/-- Note(noteclass=...). -/
def NoteEl (noteclass : String) : Node :=
  Node.elem "text:note" [("text:note-class", noteclass)] []

/-- NoteCitation(text=...). -/
def NoteCitationEl (txt : String) : Node :=
  Node.elem "text:note-citation" [] [Node.text txt]

/-- NoteBody(). -/
def NoteBodyEl : Node := Node.elem "text:note-body" [] []

/-- Table(). -/
def TableEl : Node := Node.elem "table:table" [] []

/-- TableColumn(). -/
def TableColumnEl : Node := Node.elem "table:table-column" [] []

/-- TableRow(). -/
def TableRowEl : Node := Node.elem "table:table-row" [] []

/-- TableCell(). -/
def TableCellEl : Node := Node.elem "table:table-cell" [] []

/-- Frame(width=..., height=..., stylename=...); frames carry their
style reference in a draw attribute. -/
def FrameEl (width height : String) (stylename : Option Node) : Node :=
  Node.elem "draw:frame"
    ([("svg:width", width), ("svg:height", height)] ++
      (match stylename with
       | some st => [("draw:style-name", nameOf st)]
       | none => []))
    []

/-- TextBox(). -/
def TextBoxEl : Node := Node.elem "draw:text-box" [] []

/-- The PageLayout built by make_pagestyle: named name_Layout, holding
the margin properties child the helper appends to it. -/
def pageLayoutNode (name : String) : Node :=
  Node.elem "style:page-layout" [("style:name", name ++ "_Layout")]
    [Node.elem "style:page-layout-properties" [("fo:margin", "2cm")] []]

/-- The MasterPage built by make_pagestyle, referencing its layout by
name. -/
def masterPageNode (name : String) : Node :=
  Node.elem "style:master-page"
    [("style:name", name), ("style:page-layout-name", name ++ "_Layout")] []

/-- The ListStyle built by make_liststyle: a named list style holding a
level-1 bullet child. -/
def listStyleHandle (name : String) : Node :=
  Node.elem "text:list-style" [("style:name", name)]
    [Node.elem "text:list-level-style-bullet"
      [("text:level", "1"), ("text:bullet-char", "•")] []]

/-- The document state: the three style containers and the body content
sequence (children of office:text), mirroring doc.styles,
doc.automaticstyles, doc.masterstyles and doc.text. -/
structure Doc where
  styles : List Node
  automaticstyles : List Node
  masterstyles : List Node
  body : List Node

/-- The observable state of one run: the document being built, the list
of destinations written, and the messages printed. -/
structure RunState where
  doc : Doc
  writes : List String
  messages : List String

/-- The empty document the script starts from (OpenDocumentText()). -/
def initDoc : Doc := ⟨[], [], [], []⟩

/-- The initial run state. -/
def initState : RunState := ⟨initDoc, [], []⟩

/-- One document-level call of the script.  regStyle is
doc.styles.addElement, regAutoStyle is doc.automaticstyles.addElement,
regPageStyle is the whole make_pagestyle helper (layout into the
automatic styles, master page into the master styles), addText is
doc.text.addElement, appendToLastText is an addElement on the body
element most recently appended (the source mutates the object it still
holds a reference to), save is doc.save and printMsg is print. -/
inductive Op where
  | regStyle (st : Node) : Op
  | regAutoStyle (st : Node) : Op
  | regPageStyle (name : String) : Op
  | addText (n : Node) : Op
  | appendToLastText (child : Node) : Op
  | save (filename : String) (addsuffix : Bool) : Op
  | printMsg (m : String) : Op

/-- Apply one document-level call to the run state, going through the
checked append for every insertion into a document container. -/
def runOpE (s : RunState) (op : Op) : Except String RunState :=
  match op with
  | .regStyle st => do
      let sts ← addToContainer "office:styles" s.doc.styles st
      .ok { s with doc := { s.doc with styles := sts } }
  | .regAutoStyle st => do
      let sts ← addToContainer "office:automatic-styles" s.doc.automaticstyles st
      .ok { s with doc := { s.doc with automaticstyles := sts } }
  | .regPageStyle name => do
      let autos ← addToContainer "office:automatic-styles" s.doc.automaticstyles
        (pageLayoutNode name)
      let masters ← addToContainer "office:master-styles" s.doc.masterstyles
        (masterPageNode name)
      .ok { s with doc := { s.doc with automaticstyles := autos, masterstyles := masters } }
  | .addText n => do
      let b ← addToContainer "office:text" s.doc.body n
      .ok { s with doc := { s.doc with body := b } }
  | .appendToLastText child =>
      match s.doc.body.getLast? with
      | none => .error "no element to append to"
      | some lastN => do
          let lastN' ← addElement lastN child
          .ok { s with doc := { s.doc with body := s.doc.body.dropLast ++ [lastN'] } }
  | .save f _ => .ok { s with writes := s.writes ++ [f] }
  | .printMsg m => .ok { s with messages := s.messages ++ [m] }

/-- heading_1_style = make_parastyle("Heading 1") (the pure style value;
its registration is the matching regStyle entry in coreOps). -/
def heading_1_style : Node := styleHandle "Heading 1" "paragraph"

/-- heading_2_style. -/
def heading_2_style : Node := styleHandle "Heading 2" "paragraph"

/-- heading_3_style. -/
def heading_3_style : Node := styleHandle "Heading 3" "paragraph"

/-- heading_4_style. -/
def heading_4_style : Node := styleHandle "Heading 4" "paragraph"

/-- heading_5_style. -/
def heading_5_style : Node := styleHandle "Heading 5" "paragraph"

/-- heading_6_style. -/
def heading_6_style : Node := styleHandle "Heading 6" "paragraph"

/-- body_text_style. -/
def body_text_style : Node := styleHandle "Body Text" "paragraph"

/-- body_text_indent_style. -/
def body_text_indent_style : Node := styleHandle "Body Text Indent" "paragraph"

/-- preformatted_style. -/
def preformatted_style : Node := styleHandle "Preformatted Text" "paragraph"

/-- quotation_style. -/
def quotation_style : Node := styleHandle "Quotation" "paragraph"

/-- first_line_indent_style. -/
def first_line_indent_style : Node := styleHandle "First Line Indent" "paragraph"

/-- list_parastyle. -/
def list_parastyle : Node := styleHandle "List" "paragraph"

/-- list_1_style. -/
def list_1_style : Node := styleHandle "List 1" "paragraph"

/-- list_2_style. -/
def list_2_style : Node := styleHandle "List 2" "paragraph"

/-- list_3_style. -/
def list_3_style : Node := styleHandle "List 3" "paragraph"

/-- list_contents_style. -/
def list_contents_style : Node := styleHandle "List Contents" "paragraph"

/-- index_style. -/
def index_style : Node := styleHandle "Index" "paragraph"

/-- index_heading_style. -/
def index_heading_style : Node := styleHandle "Index Heading" "paragraph"

/-- caption_style. -/
def caption_style : Node := styleHandle "Caption" "paragraph"

/-- table_contents_style. -/
def table_contents_style : Node := styleHandle "Table Contents" "paragraph"

/-- footnote_style. -/
def footnote_style : Node := styleHandle "Footnote" "paragraph"

/-- endnote_style. -/
def endnote_style : Node := styleHandle "Endnote" "paragraph"

/-- biblio_entry_style. -/
def biblio_entry_style : Node := styleHandle "Bibliography Entry" "paragraph"

/-- signature_style. -/
def signature_style : Node := styleHandle "Signature" "paragraph"

/-- marginalia_style. -/
def marginalia_style : Node := styleHandle "Marginalia" "paragraph"

/-- drop_caps_style. -/
def drop_caps_style : Node := styleHandle "Drop Caps" "paragraph"

/-- frame_contents_style. -/
def frame_contents_style : Node := styleHandle "Frame Contents" "paragraph"

/-- default_para_style. -/
def default_para_style : Node := styleHandle "Default Style" "paragraph"

/-- default_char_style = make_charstyle("Default Style (Character)"). -/
def default_char_style : Node := styleHandle "Default Style (Character)" "text"

/-- emphasis_char_style. -/
def emphasis_char_style : Node := styleHandle "Emphasis" "text"

/-- strong_char_style. -/
def strong_char_style : Node := styleHandle "Strong Emphasis" "text"

/-- source_text_char_style. -/
def source_text_char_style : Node := styleHandle "Source Text" "text"

/-- example_char_style. -/
def example_char_style : Node := styleHandle "Example" "text"

/-- code_char_style. -/
def code_char_style : Node := styleHandle "Code" "text"

/-- user_entry_char_style. -/
def user_entry_char_style : Node := styleHandle "User Entry" "text"

/-- teletype_char_style. -/
def teletype_char_style : Node := styleHandle "Teletype" "text"

/-- footnote_char_style. -/
def footnote_char_style : Node := styleHandle "Footnote Characters" "text"

/-- endnote_char_style. -/
def endnote_char_style : Node := styleHandle "Endnote Characters" "text"

/-- rubies_char_style. -/
def rubies_char_style : Node := styleHandle "Rubies" "text"

/-- annotation_char_style (its style is named Annotation in the source). -/
def ann_char_style : Node := styleHandle "Annotation" "text"

/-- citation_char_style. -/
def citation_char_style : Node := styleHandle "Citation" "text"

/-- frame_style = make_framestyle("Frame Style"), family graphic. -/
def frame_style : Node := styleHandle "Frame Style" "graphic"

/-- span1 = Span(stylename=emphasis_char_style, text=...). -/
def span1 : Node := SpanEl (some emphasis_char_style) "Emphasis style, "

/-- span2. -/
def span2 : Node := SpanEl (some strong_char_style) "Strong Emphasis style, "

/-- span3. -/
def span3 : Node := SpanEl (some code_char_style) "Code style, "

/-- span4. -/
def span4 : Node := SpanEl (some citation_char_style) "Citation style."

/-- para: the character-styles demonstration paragraph with the four
spans appended in order. -/
def para : Node :=
  ((((P none (some "Character Styles Demonstration: ")).addChild span1).addChild
      span2).addChild span3).addChild span4

/-- li1 = ListItem() holding its List 1 paragraph. -/
def li1 : Node :=
  ListItemEl.addChild (P (some list_1_style) (some "List item 1 (List 1 style)."))

/-- li2. -/
def li2 : Node :=
  ListItemEl.addChild (P (some list_2_style) (some "List item 2 (List 2 style)."))

/-- li3. -/
def li3 : Node :=
  ListItemEl.addChild (P (some list_3_style) (some "List item 3 (List 3 style)."))

/-- demo_list = List(stylename=list_parastyle) with the three items. -/
def demo_list : Node :=
  (((ListEl (some list_parastyle)).addChild li1).addChild li2).addChild li3

/-- cell1 with its Table Contents paragraph. -/
def cell1 : Node :=
  TableCellEl.addChild (P (some table_contents_style) (some "Table Contents: Cell 1"))

/-- cell2. -/
def cell2 : Node :=
  TableCellEl.addChild (P (some table_contents_style) (some "Table Contents: Cell 2"))

/-- row = TableRow() holding cell1 and cell2. -/
def tableRow1 : Node := (TableRowEl.addChild cell1).addChild cell2

/-- table = Table() with two columns and the row. -/
def demoTable : Node :=
  ((TableEl.addChild TableColumnEl).addChild TableColumnEl).addChild tableRow1

/-- footnote_paragraph. -/
def footnote_paragraph : Node :=
  P (some footnote_style)
    (some "Footnote style paragraph. This paragraph is typically used for footnotes.")

/-- footnote_text = P(text=...). -/
def footnote_text : Node := P none (some "This is a sample footnote text.")

/-- footnote_body = NoteBody() holding footnote_text. -/
def footnote_body : Node := NoteBodyEl.addChild footnote_text

/-- footnote = Note(noteclass="footnote") with citation and body. -/
def footnote : Node :=
  ((NoteEl "footnote").addChild (NoteCitationEl "1")).addChild footnote_body

/-- anchored_para: the paragraph holding the footnote anchor. -/
def anchored_para : Node :=
  (P none (some "Some main text that references a footnote")).addChild footnote

/-- endnote_paragraph. -/
def endnote_paragraph : Node :=
  P (some endnote_style)
    (some "Endnote style paragraph. This paragraph is typically used for endnotes.")

/-- tb_p: the paragraph inside the text box. -/
def tb_p : Node :=
  P (some frame_contents_style) (some "Inside a frame (Frame Contents).")

/-- tb = TextBox() holding tb_p. -/
def tb : Node := TextBoxEl.addChild tb_p

/-- frame = Frame(width="7cm", height="1cm", stylename=frame_style) with
the text box appended. -/
def frameNode : Node := (FrameEl "7cm" "1cm" (some frame_style)).addChild tb

/-- pagebreak_para as first created (the source later appends a span to
it through the reference it still holds; that append is the
appendToLastText entry in coreOps). -/
def pagebreak_para : Node :=
  P none (some "=== Manual page break to \x27First Page\x27 style below ===")

/-- The document-level calls of create_odt_ref_doc in source order,
excluding the final save and print (which mention the filename argument
and are appended by `script`).  Registration calls and content appends
are transcribed statement by statement from the source. -/
def coreOps : List Op := [
  Op.regStyle heading_1_style,
  Op.regStyle heading_2_style,
  Op.regStyle heading_3_style,
  Op.regStyle heading_4_style,
  Op.regStyle heading_5_style,
  Op.regStyle heading_6_style,
  Op.regStyle body_text_style,
  Op.regStyle body_text_indent_style,
  Op.regStyle preformatted_style,
  Op.regStyle quotation_style,
  Op.regStyle first_line_indent_style,
  Op.regStyle list_parastyle,
  Op.regStyle list_1_style,
  Op.regStyle list_2_style,
  Op.regStyle list_3_style,
  Op.regStyle list_contents_style,
  Op.regStyle index_style,
  Op.regStyle index_heading_style,
  Op.regStyle caption_style,
  Op.regStyle table_contents_style,
  Op.regStyle footnote_style,
  Op.regStyle endnote_style,
  Op.regStyle biblio_entry_style,
  Op.regStyle signature_style,
  Op.regStyle marginalia_style,
  Op.regStyle drop_caps_style,
  Op.regStyle frame_contents_style,
  Op.regStyle default_para_style,
  Op.regStyle default_char_style,
  Op.regStyle emphasis_char_style,
  Op.regStyle strong_char_style,
  Op.regStyle source_text_char_style,
  Op.regStyle example_char_style,
  Op.regStyle code_char_style,
  Op.regStyle user_entry_char_style,
  Op.regStyle teletype_char_style,
  Op.regStyle footnote_char_style,
  Op.regStyle endnote_char_style,
  Op.regStyle rubies_char_style,
  Op.regStyle ann_char_style,
  Op.regStyle citation_char_style,
  Op.addText (P (some heading_1_style) (some "Heading 1: This paragraph demonstrates Heading 1.")),
  Op.addText (P (some heading_2_style) (some "Heading 2: This paragraph demonstrates Heading 2.")),
  Op.addText (P (some heading_3_style) (some "Heading 3: This paragraph demonstrates Heading 3.")),
  Op.addText (P (some heading_4_style) (some "Heading 4: This paragraph demonstrates Heading 4.")),
  Op.addText (P (some heading_5_style) (some "Heading 5: This paragraph demonstrates Heading 5.")),
  Op.addText (P (some heading_6_style) (some "Heading 6: This paragraph demonstrates Heading 6.")),
  Op.addText (P (some body_text_style) (some "Body Text: This paragraph uses the Body Text style.")),
  Op.addText (P (some body_text_indent_style) (some "Body Text Indent: This paragraph uses the Body Text Indent style (indented).")),
  Op.addText (P (some preformatted_style) (some "Preformatted Text: Typically, spacing is preserved in this style.")),
  Op.addText (P (some quotation_style) (some "Quotation: This paragraph demonstrates the Quotation style.")),
  Op.addText (P (some first_line_indent_style) (some "First Line Indent: The first line of this paragraph should be indented.")),
  Op.addText (P (some default_para_style) (some "Default Style: This paragraph uses the general default style.")),
  Op.addText para,
  Op.addText (P (some list_contents_style) (some "Below is a simple list using \x27List Contents\x27 for paragraphs:")),
  Op.addText demo_list,
  Op.addText (P (some index_heading_style) (some "Index Heading: This could appear at the start of an index section.")),
  Op.addText (P (some index_style) (some "Index: This paragraph demonstrates the Index style.")),
  Op.addText (P (some caption_style) (some "Caption: Typically used for describing an image/table.")),
  Op.addText demoTable,
  Op.addText footnote_paragraph,
  Op.addText anchored_para,
  Op.addText endnote_paragraph,
  Op.addText (P (some biblio_entry_style) (some "Bibliography Entry: This paragraph could be used for references or citations.")),
  Op.addText (P (some signature_style) (some "Signature: This might be used for signing a document.")),
  Op.addText (P (some marginalia_style) (some "Marginalia: Typically, text that might appear in the margin.")),
  Op.addText (P (some drop_caps_style) (some "Drop Caps: This style could be used at the start of a chapter.")),
  Op.addText (P (some frame_contents_style) (some "Frame Contents: Used inside frames.")),
  Op.regStyle frame_style,
  Op.addText frameNode,
  Op.regPageStyle "Default Style (Page)",
  Op.regPageStyle "First Page",
  Op.regPageStyle "Left Page",
  Op.regPageStyle "Right Page",
  Op.regPageStyle "Index Page",
  Op.regPageStyle "Envelope",
  Op.regPageStyle "Landscape",
  Op.regPageStyle "Endnote Page",
  Op.regPageStyle "Footnote Page",
  Op.addText pagebreak_para,
  Op.appendToLastText (SpanEl none "\n"),
  Op.addText (P none (some "Now we are on a new page (ideally with \x27First Page\x27 style).")),
  Op.regAutoStyle (listStyleHandle "Numbering 1"),
  Op.regAutoStyle (listStyleHandle "Numbering 2"),
  Op.regAutoStyle (listStyleHandle "Numbering 3"),
  Op.regAutoStyle (listStyleHandle "Numbering 4"),
  Op.regAutoStyle (listStyleHandle "Numbering 5"),
  Op.regAutoStyle (listStyleHandle "Bullet 1"),
  Op.regAutoStyle (listStyleHandle "Bullet 2"),
  Op.regAutoStyle (listStyleHandle "Bullet 3"),
  Op.regAutoStyle (listStyleHandle "Bullet 4"),
  Op.regAutoStyle (listStyleHandle "Bullet 5"),
  Op.regAutoStyle (listStyleHandle "Default List Style"),
  Op.addText (P none (some "Numbering & Bullet list styles declared (Numbering 1..5, Bullet 1..5).")),
  Op.regAutoStyle (styleHandle "Default Table Style" "table"),
  Op.regAutoStyle (styleHandle "Academic" "table"),
  Op.regAutoStyle (styleHandle "Elegant" "table"),
  Op.regAutoStyle (styleHandle "Financial" "table"),
  Op.regAutoStyle (styleHandle "Simple Grid" "table"),
  Op.regAutoStyle (styleHandle "Box List" "table"),
  Op.regAutoStyle (styleHandle "Blue" "table"),
  Op.regAutoStyle (styleHandle "Yellow" "table"),
  Op.regAutoStyle (styleHandle "Gray" "table"),
  Op.regAutoStyle (styleHandle "Green" "table"),
  Op.regAutoStyle (styleHandle "Orange" "table"),
  Op.addText (P none (some "Additional table styles (Academic, Elegant, Financial, etc.) defined."))
]

/-- The confirmation message the script prints for a given filename. -/
def outputMessage (filename : String) : String :=
  "Created " ++ filename ++ " successfully."

/-- The full call sequence of create_odt_ref_doc(filename): the
document-level calls, then doc.save(filename, True), then the
confirmation print. -/
def script (filename : String) : List Op :=
  coreOps ++ [Op.save filename true, Op.printMsg (outputMessage filename)]

/-- Run the whole script: fold the interpreter over the call sequence,
starting from the empty document. -/
def runE (filename : String) : Except String RunState :=
  (script filename).foldlM runOpE initState

/-- create_odt_ref_doc(filename="LibreOfficeStylesRefDoc"): the whole
program, with the documented default destination. -/
def create_odt_ref_doc (filename : String := "LibreOfficeStylesRefDoc") :
    Except String RunState :=
  runE filename

/-- Extract the run state of a successful run (falling back to the
initial state on failure; the runs below are all proved successful). -/
def stateOf (r : Except String RunState) : RunState :=
  r.toOption.getD initState

/-- The run state produced for a given filename. -/
def runStateFor (filename : String) : RunState := stateOf (runE filename)

/-- The (name, family) key of a style-table entry.  Plain styles carry
their family attribute; page layouts, master pages and list styles are
keyed by the synthetic families of their entry kinds. -/
def styleKey : Node → Option (String × String)
  | .elem "style:style" attrs _ =>
      match attrVal "style:name" attrs, attrVal "style:family" attrs with
      | some n, some f => some (n, f)
      | _, _ => none
  | .elem "style:page-layout" attrs _ =>
      (attrVal "style:name" attrs).map (fun n => (n, "page-layout"))
  | .elem "style:master-page" attrs _ =>
      (attrVal "style:name" attrs).map (fun n => (n, "master-page"))
  | .elem "text:list-style" attrs _ =>
      (attrVal "style:name" attrs).map (fun n => (n, "list"))
  | _ => none

/-- The (name, family) pairs one call registers. -/
def opRegPairs : Op → List (String × String)
  | .regStyle st => (styleKey st).toList
  | .regAutoStyle st => (styleKey st).toList
  | .regPageStyle n => [(n ++ "_Layout", "page-layout"), (n, "master-page")]
  | _ => []

/-- All (name, family) pairs registered by a call sequence, in order. -/
def regPairs (ops : List Op) : List (String × String) :=
  (ops.map opRegPairs).flatten

/-- The (name, family) keys of all entries of the built document style
tables. -/
def tableKeys (d : Doc) : List (String × String) :=
  ((d.styles ++ d.automaticstyles ++ d.masterstyles).map
    (fun n => (styleKey n).toList)).flatten

/-- Whether a call is a style registration. -/
def isRegOp : Op → Bool
  | .regStyle _ | .regAutoStyle _ | .regPageStyle _ => true
  | _ => false

/-- Whether a call builds content. -/
def isContentOp : Op → Bool
  | .addText _ | .appendToLastText _ => true
  | _ => false

/-- Whether a call is the save. -/
def isSaveOp : Op → Bool
  | .save _ _ => true
  | _ => false

/-- Whether a call is a print. -/
def isPrintOp : Op → Bool
  | .printMsg _ => true
  | _ => false

/-- The strict phasing the claim asserts: once any content has been
built, no further style registration occurs. -/
def regsBeforeContent : List Op → Bool
  | [] => true
  | op :: rest =>
      (if isContentOp op then rest.all (fun o => !isRegOp o) else true) &&
        regsBeforeContent rest

/-- The style references carried by an attribute list: stylename
attributes of paragraphs, spans and lists, and of frames. -/
def refAttrs (attrs : List (String × String)) : List String :=
  attrs.filterMap (fun p =>
    if p.fst == "text:style-name" || p.fst == "draw:style-name" then some p.snd
    else none)

/-- The fuel bound used when walking concrete node trees.  All trees in
this development are far smaller than this. -/
def nodeFuel : Nat := 10000

/-- All style references carried by a list of nodes, recursively
(fuel-bounded so that the recursion is structural). -/
def styleRefsF : Nat → List Node → List String
  | 0, _ => []
  | _ + 1, [] => []
  | fuel + 1, Node.text _ :: cs => styleRefsF fuel cs
  | fuel + 1, Node.elem _ attrs ccs :: cs =>
      refAttrs attrs ++ styleRefsF fuel ccs ++ styleRefsF fuel cs

/-- The content nodes a call appends to the document. -/
def opContentNodes : Op → List Node
  | .addText n => [n]
  | .appendToLastText n => [n]
  | _ => []

/-- The names a call registers. -/
def opRegNames (op : Op) : List String := (opRegPairs op).map Prod.fst

/-- Walk a call sequence carrying the set of registered style names, and
check that every style reference in every appended content node names a
style registered by an earlier call. -/
def refsOk : List Op → List String → Bool
  | [], _ => true
  | op :: rest, regd =>
      (styleRefsF nodeFuel (opContentNodes op)).all (fun r => regd.contains r) &&
        refsOk rest (regd ++ opRegNames op)

/-- A serialization token: the structure-and-text event stream of a node
tree, as the spec scopes round-tripping (structure and text, not visual
rendering). -/
inductive Tok where
  | openTag (tag : String) (attrs : List (String × String)) : Tok
  | closeTag (tag : String) : Tok
  | textTok (s : String) : Tok

/-- Modelled from the spec: the external serializer, restricted to the
structure and text the round-trip property ranges over.  Serializes a
node sequence to its token stream (fuel-bounded so that the recursion is
structural; the concrete document is far smaller than the fuel used). -/
def serializeListF : Nat → List Node → List Tok
  | 0, _ => []
  | _ + 1, [] => []
  | fuel + 1, Node.text s :: cs => Tok.textTok s :: serializeListF fuel cs
  | fuel + 1, Node.elem t a children :: cs =>
      Tok.openTag t a :: (serializeListF fuel children ++
        (Tok.closeTag t :: serializeListF fuel cs))

/-- Modelled from the spec: re-parsing the serialized output.  Parses a
token stream back into a node sequence, returning the nodes parsed and
the unconsumed tokens (stopping at a close tag), or none on a malformed
stream or fuel exhaustion. -/
def parseMany : Nat → List Tok → Option (List Node × List Tok)
  | 0, _ => none
  | _ + 1, [] => some ([], [])
  | _ + 1, Tok.closeTag t :: rest => some ([], Tok.closeTag t :: rest)
  | fuel + 1, Tok.textTok s :: rest =>
      match parseMany fuel rest with
      | some (ns, r) => some (Node.text s :: ns, r)
      | none => none
  | fuel + 1, Tok.openTag t a :: rest =>
      match parseMany fuel rest with
      | some (cs, Tok.closeTag t2 :: r2) =>
          if t = t2 then
            match parseMany fuel r2 with
            | some (ns, r3) => some (Node.elem t a cs :: ns, r3)
            | none => none
          else none
      | _ => none

/-- Check, fuel-bounded, that every parent-child pair under a container
with tag `ptag` satisfies the structural constraints: this is exactly
the condition under which every addElement that assembled the tree
succeeded. -/
def wfListF : Nat → String → List Node → Bool
  | 0, _, _ => false
  | _ + 1, _, [] => true
  | fuel + 1, ptag, c :: cs =>
      wfChildOk ptag c &&
        (match c with
         | Node.text _ => true
         | Node.elem t _ ccs => wfListF fuel t ccs) &&
        wfListF fuel ptag cs

/-- Structural well-formedness of the whole document: every container
holds only children the constraints allow, recursively. -/
def docWf (d : Doc) : Bool :=
  wfListF nodeFuel "office:styles" d.styles &&
    wfListF nodeFuel "office:automatic-styles" d.automaticstyles &&
    wfListF nodeFuel "office:master-styles" d.masterstyles &&
    wfListF nodeFuel "office:text" d.body

/-- The modelled containers other than a table row: the parents for
which appending a table cell is a structural-constraint violation. -/
def containerTagsNotRow : List String :=
  ["office:text", "text:p", "text:list", "text:list-item", "table:table",
   "table:table-cell", "draw:frame", "draw:text-box", "text:note",
   "text:note-body", "office:styles", "office:automatic-styles",
   "office:master-styles", "style:page-layout", "text:list-style",
   "style:master-page", "style:style"]

/-- The five style families the spec enumerates, in the vocabulary the
source passes to the Style constructor (character styles use the family
string text). -/
def styleFamilies : List String := ["paragraph", "text", "graphic", "table", "list"]

/-- The style-registration operation (the shared shape of the
make_parastyle, make_charstyle, make_framestyle and make_tablestyle
helpers): build a Style node with the given name and family, append it
to a style container through the checked append, and return the handle. -/
def register (styles : List Node) (name family : String) :
    Except String (List Node × Node) := do
  let st := styleHandle name family
  let styles2 ← addToContainer "office:styles" styles st
  .ok (styles2, st)

/-- The 82 (name, family) pairs the script registers, in registration
order.  Tied to the op sequence by an equation proved below. -/
def allStylePairs : List (String × String) := [
  ("Heading 1", "paragraph"),
  ("Heading 2", "paragraph"),
  ("Heading 3", "paragraph"),
  ("Heading 4", "paragraph"),
  ("Heading 5", "paragraph"),
  ("Heading 6", "paragraph"),
  ("Body Text", "paragraph"),
  ("Body Text Indent", "paragraph"),
  ("Preformatted Text", "paragraph"),
  ("Quotation", "paragraph"),
  ("First Line Indent", "paragraph"),
  ("List", "paragraph"),
  ("List 1", "paragraph"),
  ("List 2", "paragraph"),
  ("List 3", "paragraph"),
  ("List Contents", "paragraph"),
  ("Index", "paragraph"),
  ("Index Heading", "paragraph"),
  ("Caption", "paragraph"),
  ("Table Contents", "paragraph"),
  ("Footnote", "paragraph"),
  ("Endnote", "paragraph"),
  ("Bibliography Entry", "paragraph"),
  ("Signature", "paragraph"),
  ("Marginalia", "paragraph"),
  ("Drop Caps", "paragraph"),
  ("Frame Contents", "paragraph"),
  ("Default Style", "paragraph"),
  ("Default Style (Character)", "text"),
  ("Emphasis", "text"),
  ("Strong Emphasis", "text"),
  ("Source Text", "text"),
  ("Example", "text"),
  ("Code", "text"),
  ("User Entry", "text"),
  ("Teletype", "text"),
  ("Footnote Characters", "text"),
  ("Endnote Characters", "text"),
  ("Rubies", "text"),
  ("Annotation", "text"),
  ("Citation", "text"),
  ("Frame Style", "graphic"),
  ("Default Style (Page)_Layout", "page-layout"),
  ("Default Style (Page)", "master-page"),
  ("First Page_Layout", "page-layout"),
  ("First Page", "master-page"),
  ("Left Page_Layout", "page-layout"),
  ("Left Page", "master-page"),
  ("Right Page_Layout", "page-layout"),
  ("Right Page", "master-page"),
  ("Index Page_Layout", "page-layout"),
  ("Index Page", "master-page"),
  ("Envelope_Layout", "page-layout"),
  ("Envelope", "master-page"),
  ("Landscape_Layout", "page-layout"),
  ("Landscape", "master-page"),
  ("Endnote Page_Layout", "page-layout"),
  ("Endnote Page", "master-page"),
  ("Footnote Page_Layout", "page-layout"),
  ("Footnote Page", "master-page"),
  ("Numbering 1", "list"),
  ("Numbering 2", "list"),
  ("Numbering 3", "list"),
  ("Numbering 4", "list"),
  ("Numbering 5", "list"),
  ("Bullet 1", "list"),
  ("Bullet 2", "list"),
  ("Bullet 3", "list"),
  ("Bullet 4", "list"),
  ("Bullet 5", "list"),
  ("Default List Style", "list"),
  ("Default Table Style", "table"),
  ("Academic", "table"),
  ("Elegant", "table"),
  ("Financial", "table"),
  ("Simple Grid", "table"),
  ("Box List", "table"),
  ("Blue", "table"),
  ("Yellow", "table"),
  ("Gray", "table"),
  ("Green", "table"),
  ("Orange", "table")]

/-- The 82 (name, family) keys of the built document style tables, in
container order (styles, then automatic styles, then master styles).
Tied to the built document by an equation proved below. -/
def tablePairs : List (String × String) := [
  ("Heading 1", "paragraph"),
  ("Heading 2", "paragraph"),
  ("Heading 3", "paragraph"),
  ("Heading 4", "paragraph"),
  ("Heading 5", "paragraph"),
  ("Heading 6", "paragraph"),
  ("Body Text", "paragraph"),
  ("Body Text Indent", "paragraph"),
  ("Preformatted Text", "paragraph"),
  ("Quotation", "paragraph"),
  ("First Line Indent", "paragraph"),
  ("List", "paragraph"),
  ("List 1", "paragraph"),
  ("List 2", "paragraph"),
  ("List 3", "paragraph"),
  ("List Contents", "paragraph"),
  ("Index", "paragraph"),
  ("Index Heading", "paragraph"),
  ("Caption", "paragraph"),
  ("Table Contents", "paragraph"),
  ("Footnote", "paragraph"),
  ("Endnote", "paragraph"),
  ("Bibliography Entry", "paragraph"),
  ("Signature", "paragraph"),
  ("Marginalia", "paragraph"),
  ("Drop Caps", "paragraph"),
  ("Frame Contents", "paragraph"),
  ("Default Style", "paragraph"),
  ("Default Style (Character)", "text"),
  ("Emphasis", "text"),
  ("Strong Emphasis", "text"),
  ("Source Text", "text"),
  ("Example", "text"),
  ("Code", "text"),
  ("User Entry", "text"),
  ("Teletype", "text"),
  ("Footnote Characters", "text"),
  ("Endnote Characters", "text"),
  ("Rubies", "text"),
  ("Annotation", "text"),
  ("Citation", "text"),
  ("Frame Style", "graphic"),
  ("Default Style (Page)_Layout", "page-layout"),
  ("First Page_Layout", "page-layout"),
  ("Left Page_Layout", "page-layout"),
  ("Right Page_Layout", "page-layout"),
  ("Index Page_Layout", "page-layout"),
  ("Envelope_Layout", "page-layout"),
  ("Landscape_Layout", "page-layout"),
  ("Endnote Page_Layout", "page-layout"),
  ("Footnote Page_Layout", "page-layout"),
  ("Numbering 1", "list"),
  ("Numbering 2", "list"),
  ("Numbering 3", "list"),
  ("Numbering 4", "list"),
  ("Numbering 5", "list"),
  ("Bullet 1", "list"),
  ("Bullet 2", "list"),
  ("Bullet 3", "list"),
  ("Bullet 4", "list"),
  ("Bullet 5", "list"),
  ("Default List Style", "list"),
  ("Default Table Style", "table"),
  ("Academic", "table"),
  ("Elegant", "table"),
  ("Financial", "table"),
  ("Simple Grid", "table"),
  ("Box List", "table"),
  ("Blue", "table"),
  ("Yellow", "table"),
  ("Gray", "table"),
  ("Green", "table"),
  ("Orange", "table"),
  ("Default Style (Page)", "master-page"),
  ("First Page", "master-page"),
  ("Left Page", "master-page"),
  ("Right Page", "master-page"),
  ("Index Page", "master-page"),
  ("Envelope", "master-page"),
  ("Landscape", "master-page"),
  ("Endnote Page", "master-page"),
  ("Footnote Page", "master-page")]

/-- The document component of a run does not depend on the filename: it
equals the document built by the core calls alone, because the save and
the print that follow them never touch the document. -/
theorem runE_doc_core (f : String) :
    Except.map (fun st => st.doc) (runE f) =
      Except.map (fun st => st.doc) (coreOps.foldlM runOpE initState) := by
  show Except.map (fun st => st.doc)
      ((coreOps ++ [Op.save f true, Op.printMsg (outputMessage f)]).foldlM runOpE initState) = _
  rw [List.foldlM_append]
  cases hc : coreOps.foldlM runOpE initState <;> rfl

/-- C1: every (name, family) pair the program registers is registered
exactly once (no two registration calls produce the same pair), and the
built document style tables contain exactly one entry keyed by each
registered pair. -/
theorem c1_style_table_unique (f : String) :
    (regPairs (script f)).Nodup ∧
      (regPairs (script f)).all
        (fun p => ((tableKeys (runStateFor f).doc).count p == 1)) = true := by
  have h1 : regPairs (script f) = allStylePairs := rfl
  have h2 : tableKeys (runStateFor f).doc = tablePairs := rfl
  rw [h1, h2]
  exact ⟨by decide, by decide⟩

/-- C2 counterexample: the claimed strict phasing is false on the code.
In the actual call sequence, content is appended (the heading paragraph
of line 98 onward) before the graphic, page, list and table styles are
registered (lines 218, 248 to 256, 289 to 301 and 311 to 327), so a
style registration occurs after content has been built. -/
theorem c2_counterexample :
    regsBeforeContent (script "LibreOfficeStylesRefDoc") = false := rfl

/-- C2 (amended): registrations and content appends are interleaved, but
every one of them occurs before the single save, the save is followed
only by the confirmation print, and the whole run is one fixed finite
straight-line call sequence (so there is no loop, retry, or callback). -/
theorem c2_linear_until_save (f : String) :
    ∃ pre, script f = pre ++ [Op.save f true, Op.printMsg (outputMessage f)] ∧
      pre.all (fun op => isRegOp op || isContentOp op) = true :=
  ⟨coreOps, rfl, rfl⟩

/-- C3: given a non-empty name and one of the five enumerated families,
registration succeeds and returns a handle carrying exactly that name
and family, and registering the same (name, family) pair again also
raises no error. -/
theorem c3_register_total (styles : List Node) (name family : String)
    (_h1 : name ≠ "") (_h2 : family ∈ styleFamilies) :
    ∃ styles2 st, register styles name family = .ok (styles2, st) ∧
      styleKey st = some (name, family) ∧ nameOf st = name ∧
      ∃ styles3 st2, register styles2 name family = .ok (styles3, st2) :=
  ⟨_, _, rfl, rfl, rfl, _, _, rfl⟩

/-- C3 witness: registration of a paragraph style named Heading 1 into
an empty table, and its duplicate re-registration, both succeed. -/
theorem c3_register_total_witness :
    ∃ styles2 st, register [] "Heading 1" "paragraph" = .ok (styles2, st) ∧
      styleKey st = some ("Heading 1", "paragraph") ∧ nameOf st = "Heading 1" ∧
      ∃ styles3 st2, register styles2 "Heading 1" "paragraph" = .ok (styles3, st2) :=
  c3_register_total [] "Heading 1" "paragraph" (by decide) (by decide)

/-- C4: calling the build-and-save operation with no destination
argument writes exactly one output, at the documented default
destination name. -/
theorem c4_default_destination :
    (stateOf create_odt_ref_doc).writes = ["LibreOfficeStylesRefDoc"] ∧
      (stateOf create_odt_ref_doc).writes.length = 1 :=
  ⟨rfl, rfl⟩

/-- C5: appending a table cell to any modelled container other than a
table row signals a structural-constraint violation; any append whose
child satisfies the structural constraints succeeds; the whole document
the script builds satisfies the constraints at every parent-child pair;
and the script run itself completes with no append failing. -/
theorem c5_structural_constraints :
    (∀ t, t ∈ containerTagsNotRow → ∀ attrs cs cattrs ccs,
      isError (addElement (Node.elem t attrs cs)
        (Node.elem "table:table-cell" cattrs ccs)) = true) ∧
    (∀ t attrs cs child, wfChildOk t child = true →
      isError (addElement (Node.elem t attrs cs) child) = false) ∧
    docWf (runStateFor "LibreOfficeStylesRefDoc").doc = true ∧
    (∀ f, exceptOk (runE f) = true) := by
  refine ⟨?_, ?_, rfl, fun _ => rfl⟩
  · intro t ht attrs cs cattrs ccs
    fin_cases ht <;> rfl
  · intro t attrs cs child h
    simp [addElement, isError, h]

/-- C5 witness: a table cell appended under the body container is
rejected, while appended under a table row it is accepted. -/
theorem c5_structural_constraints_witness :
    isError (addElement (Node.elem "office:text" [] [])
      (Node.elem "table:table-cell" [] [])) = true ∧
    isError (addElement (Node.elem "table:table-row" [] [])
      (Node.elem "table:table-cell" [] [])) = false :=
  ⟨c5_structural_constraints.1 "office:text" (by decide) [] [] [] [],
   c5_structural_constraints.2.1 "table:table-row" [] []
     (Node.elem "table:table-cell" [] []) (by decide)⟩

/-- C6: serializing the finished document body to its structure-and-text
token stream and re-parsing it yields exactly the same content nodes, in
the same order, with the same text. -/
theorem c6_roundtrip :
    parseMany nodeFuel
        (serializeListF nodeFuel (runStateFor "LibreOfficeStylesRefDoc").doc.body) =
      some ((runStateFor "LibreOfficeStylesRefDoc").doc.body, []) := rfl

/-- C7: on success the program prints exactly one confirmation message,
which names the destination, and its call alphabet consists only of
registrations, content appends, the save, and the print: it performs no
exit-status effect and defines no machine-readable status. -/
theorem c7_confirmation_message (f : String) :
    Except.map (fun st => st.messages) (runE f) = Except.ok [outputMessage f] ∧
      outputMessage f = "Created " ++ f ++ " successfully." ∧
      (script f).all
        (fun op => isRegOp op || isContentOp op || isSaveOp op || isPrintOp op) = true :=
  ⟨rfl, rfl, rfl⟩

/-- C9: the run is a pure function of the filename; the document built
is identical for any two filenames, and the filename shows up only as
the save destination and inside the confirmation message. -/
theorem c9_filename_independent (f1 f2 : String) :
    Except.map (fun st => st.doc) (runE f1) =
        Except.map (fun st => st.doc) (runE f2) ∧
      Except.map (fun st => st.writes) (runE f1) = Except.ok [f1] ∧
      Except.map (fun st => st.messages) (runE f1) = Except.ok [outputMessage f1] :=
  ⟨(runE_doc_core f1).trans (runE_doc_core f2).symm, rfl, rfl⟩

/-- C10: walking the call sequence in order, every style reference
carried by an appended content node (paragraph, span, list and frame
stylenames, recursively) names a style registered by an earlier call. -/
theorem c10_refs_registered_before_use (f : String) :
    refsOk (script f) [] = true := rfl
